import Mathlib

/-
Verification of the multiservices-compose listing service
(src/services/api/project/__init__.py) against its specification.

The whole program is one Python module:

  line 5   app = Flask(__name__)
  line 6   SQLALCHEMY_DATABASE_URI = os.environ.get("DATABASE_URL")
  line 7   connection = Postgres(SQLALCHEMY_DATABASE_URI)
  line 9   connection.run("CREATE TABLE users (name text)")
  line 10  connection.run("INSERT INTO users VALUES (maggie simpson)")
  line 12-15   @app.route("/users") def index(): users = connection.all("SELECT * FROM users;"); return jsonify({"users": users})
  line 17-18   if __name__ == "__main__": app.run(debug=True)

We embed the database gateway (the postgres library on a table with the
single text column name), the module-level startup sequence, and the
request handler, as pure Lean functions.  Startup and the handler also
emit a trace of the externally visible steps they perform, so that
ordering and once-only properties can be stated.
-/

namespace MSCompose

/-- Values of the JSON documents produced by Flask jsonify. -/
inductive Json where
  | str : String → Json
  | num : Int → Json
  | arr : List Json → Json
  | obj : List (String × Json) → Json

/-- Errors raised by the database gateway: the connection attempt can
fail (database unreachable, or no connection string), and an individual
SQL statement can fail (for example creating a table that already
exists, or querying a table that does not exist). -/
inductive DBError where
  | connectionError : DBError
  | statementError : DBError
deriving DecidableEq

/-- State of the backing database, as far as this program can observe it:
the users table either does not exist (none) or holds a list of rows,
each row being the value of its single text column name, in storage
order. -/
structure DB where
  usersTable : Option (List String)
deriving DecidableEq

/-- Number of rows currently in the users table (0 if the table does not
exist). -/
def rowCount (db : DB) : Nat :=
  (db.usersTable.getD []).length

/-- Embedding of connection.run "CREATE TABLE users (name text)"
(line 9).  The statement has no IF NOT EXISTS guard, so it fails with a
statement error when the table already exists, and otherwise creates the
empty table. -/
def runCreateUsers (db : DB) : Except DBError DB :=
  match db.usersTable with
  | none => .ok ⟨some []⟩
  | some _ => .error .statementError

/-- Embedding of connection.run "INSERT INTO users VALUES (maggie
simpson)" (line 10): appends the seed row to the table, failing if the
table does not exist. -/
def runInsertMaggie (db : DB) : Except DBError DB :=
  match db.usersTable with
  | none => .error .statementError
  | some rows => .ok ⟨some (rows ++ ["maggie simpson"])⟩

/-- Embedding of connection.all "SELECT * FROM users;" (line 14).  The
postgres library returns every row of the result set; because the users
table has a single column, its all method unrolls each row to the bare
column value, so the result is the list of name values.  The query fails
if the table does not exist.  This function returns the rows in storage
order; the order-nondeterministic version is QueryAllUsers below. -/
def allUsers (db : DB) : Except DBError (List String) :=
  match db.usersTable with
  | none => .error .statementError
  | some rows => .ok rows

/-- Relational version of the listing query: SELECT without ORDER BY may
return the stored rows in any order, so a result is any permutation of
the stored rows. -/
def QueryAllUsers (db : DB) (result : List String) : Prop :=
  ∃ rows, db.usersTable = some rows ∧ result.Perm rows

/-- Externally visible steps of the program, used in traces.
readEnv is the environment lookup on line 6, openConn the gateway
construction on line 7, execCreate and execInsert the two statements on
lines 9 and 10, listen the server start on line 18, and query the SELECT
issued by the handler on line 14. -/
inductive Ev where
  | readEnv : Ev
  | openConn : Ev
  | execCreate : Ev
  | execInsert : Ev
  | listen : Ev
  | query : Ev
deriving DecidableEq

/-- The connection handle produced by Postgres(uri) on line 7: it
captures the connection string it was built from. -/
structure Conn where
  uri : String
deriving DecidableEq

/-- The world a process start runs in: the value of the DATABASE_URL
environment variable (none when unset), whether the database at that
address is reachable, and the current database state. -/
structure World where
  databaseUrl : Option String
  reachable : Bool
  db : DB

/-- Embedding of Postgres(SQLALCHEMY_DATABASE_URI) (line 7).  The
library connects eagerly when constructed: with no connection string the
constructor raises before connecting, and with an unreachable database
the connection attempt raises.  Both surface as a connection error. -/
def postgresConnect (uri : Option String) (reachable : Bool) : Except DBError Conn :=
  match uri with
  | none => .error .connectionError
  | some u => if reachable then .ok ⟨u⟩ else .error .connectionError

/-- Embedding of the module-level startup, lines 6 to 18: resolve the
connection string from the environment, open the gateway connection,
create the users table, insert the seed row, then start the HTTP server.
Each step runs only if the previous one succeeded; a raised exception
aborts the module load.  The result is the trace of steps performed, the
database state reached, and either the live connection (the process is
now listening) or the startup error. -/
def boot (w : World) : List Ev × DB × Except DBError Conn :=
  match postgresConnect w.databaseUrl w.reachable with
  | .error e => ([.readEnv, .openConn], w.db, .error e)
  | .ok conn =>
    match runCreateUsers w.db with
    | .error e => ([.readEnv, .openConn, .execCreate], w.db, .error e)
    | .ok db1 =>
      match runInsertMaggie db1 with
      | .error e => ([.readEnv, .openConn, .execCreate, .execInsert], db1, .error e)
      | .ok db2 => ([.readEnv, .openConn, .execCreate, .execInsert, .listen], db2, .ok conn)

/-- Embedding of the handler index (lines 12 to 15): issue the listing
query and, on success, wrap the unrolled name values in the object with
the single key users.  The trace records the one query the handler
performs; a query failure propagates out of the handler. -/
def index (db : DB) : List Ev × Except DBError Json :=
  match allUsers db with
  | .error e => ([.query], .error e)
  | .ok users => ([.query], .ok (Json.obj [("users", Json.arr (users.map Json.str))]))

/-- HTTP responses of the route: a 200 with a JSON body, or the 500 that
Flask produces when the handler raises. -/
inductive HttpResponse where
  | ok200 : Json → HttpResponse
  | error500 : DBError → HttpResponse

/-- Dispatch of GET /users by Flask: run the handler, turning a raised
database error into a server error response. -/
def dispatchGetUsers (db : DB) : HttpResponse :=
  match (index db).2 with
  | .ok j => .ok200 j
  | .error e => .error500 e

/-- Handling one GET /users request as a transition on the database
state: the handler only issues a SELECT, which does not modify the
database, so the state is returned unchanged. -/
def handleGetUsers (db : DB) : HttpResponse × DB :=
  (dispatchGetUsers db, db)

/-- Checks that a JSON value is an object with exactly one key name
whose value is a string: the element shape the specification claims for
the users sequence. -/
def isNameObjB : Json → Bool
  | .obj [(k, .str _)] => k == "name"
  | _ => false

/-- Checks the response shape the specification claims in P2: an object
with exactly one key users whose value is a sequence of objects, each
with exactly one key name holding a string. -/
def hasClaimedShapeB : Json → Bool
  | .obj [(k, .arr elems)] => k == "users" && elems.all isNameObjB
  | _ => false

/-- Checks that a JSON value is a string. -/
def isStrB : Json → Bool
  | .str _ => true
  | _ => false

/-- Checks the shape the code actually produces: an object with exactly
one key users whose value is a sequence of strings (the unrolled name
values). -/
def hasListingShapeB : Json → Bool
  | .obj [(k, .arr elems)] => k == "users" && elems.all isStrB
  | _ => false

/-- Elements of the users sequence of a response body (the records of
the response). -/
def responseRecords : Json → List Json
  | .obj [(_, .arr elems)] => elems
  | _ => []

/-- Relational version of the handler response, built like index but
with the implementation-defined row order of the SELECT left
nondeterministic. -/
def IndexResult (db : DB) (body : Json) : Prop :=
  ∃ users, QueryAllUsers db users
    ∧ body = Json.obj [("users", Json.arr (users.map Json.str))]

/-- C1 (counterexample): on the database state reached by a successful
startup, the handler succeeds and its body holds the bare string
"maggie simpson" in the users sequence, not an object with a key name,
so the shape the specification claims is violated. -/
theorem usersResponseNotNameObjects :
    (index ⟨some ["maggie simpson"]⟩).2
      = .ok (Json.obj [("users", Json.arr [Json.str "maggie simpson"])])
    ∧ hasClaimedShapeB (Json.obj [("users", Json.arr [Json.str "maggie simpson"])]) = false :=
  ⟨rfl, rfl⟩

/-- C1 (amended): every successful response of GET /users is an object
with exactly one key users, whose value is a sequence of strings (the
name values of the rows), not a sequence of one-key objects. -/
theorem usersResponseListsStrings (db : DB) (body : Json)
    (h : (index db).2 = .ok body) : hasListingShapeB body = true := by
  unfold index at h
  cases hq : allUsers db with
  | error e => rw [hq] at h; exact absurd h (by simp)
  | ok users =>
    rw [hq] at h
    simp only [] at h
    cases h
    simp [hasListingShapeB, List.all_map, Function.comp, isStrB]

/-- C1 (witness): the amended shape theorem applied to the seeded
database state. -/
theorem usersResponseListsStrings_witness :
    hasListingShapeB (Json.obj [("users", Json.arr [Json.str "maggie simpson"])]) = true :=
  usersResponseListsStrings ⟨some ["maggie simpson"]⟩ _ rfl

/-- C2: after a startup whose seed insert succeeded, the handler
succeeds and its users sequence contains the value "maggie simpson". -/
theorem seedVisibleInListing (db db' : DB)
    (h : runInsertMaggie db = .ok db') :
    ∃ users : List String, (index db').2 = .ok (Json.obj [("users", Json.arr (users.map Json.str))])
      ∧ "maggie simpson" ∈ users := by
  unfold runInsertMaggie at h
  cases hdb : db.usersTable with
  | none => rw [hdb] at h; exact absurd h (by simp)
  | some rows =>
    rw [hdb] at h
    simp only [Except.ok.injEq] at h
    cases h
    exact ⟨rows ++ ["maggie simpson"], rfl, by simp⟩

/-- C2 (witness): the seed-visibility theorem applied to the freshly
created empty table. -/
theorem seedVisibleInListing_witness :
    ∃ users : List String,
      (index (⟨some ["maggie simpson"]⟩ : DB)).2
        = .ok (Json.obj [("users", Json.arr (users.map Json.str))])
      ∧ "maggie simpson" ∈ users :=
  seedVisibleInListing ⟨some []⟩ ⟨some ["maggie simpson"]⟩ rfl

/-- C3: a successful process start performs exactly the five startup
steps once, in order: read the environment, open the connection, create
the table, insert the seed row, listen; and the request handler performs
none of the startup steps (its trace holds only the query). -/
theorem startupTraceOnceInOrder :
    (∀ w conn, (boot w).2.2 = .ok conn →
      (boot w).1 = [Ev.readEnv, Ev.openConn, Ev.execCreate, Ev.execInsert, Ev.listen])
    ∧ (∀ db e, e ∈ (index db).1 → e = Ev.query) := by
  constructor
  · intro w conn h
    obtain ⟨url, reach, ⟨tbl⟩⟩ := w
    cases url <;> cases reach <;> cases tbl <;>
      simp_all [boot, postgresConnect, runCreateUsers, runInsertMaggie]
  · intro db e he
    obtain ⟨tbl⟩ := db
    cases tbl <;> simp_all [index, allUsers]

/-- C3 (witness): the startup-order theorem applied to a start in a
fresh world, and the handler-trace statement applied to the seeded
state and the query event. -/
theorem startupTraceOnceInOrder_witness :
    (boot ⟨some "postgres://db", true, ⟨none⟩⟩).1
      = [Ev.readEnv, Ev.openConn, Ev.execCreate, Ev.execInsert, Ev.listen]
    ∧ Ev.query = Ev.query :=
  ⟨startupTraceOnceInOrder.1 ⟨some "postgres://db", true, ⟨none⟩⟩ ⟨"postgres://db"⟩ rfl,
   startupTraceOnceInOrder.2 ⟨some ["maggie simpson"]⟩ Ev.query (by decide)⟩

/-- C4: when DATABASE_URL is unset or the database is unreachable, the
process start fails and the listen step is never reached, so the server
never binds a port nor serves a request. -/
theorem noServeWithoutDatabase (w : World)
    (h : w.databaseUrl = none ∨ w.reachable = false) :
    (∃ e, (boot w).2.2 = .error e) ∧ Ev.listen ∉ (boot w).1 := by
  obtain ⟨url, reach, ⟨tbl⟩⟩ := w
  rcases h with h | h <;> simp only [] at h <;> subst h <;>
    first
    | (cases reach <;> cases tbl <;>
        simp_all [boot, postgresConnect, runCreateUsers, runInsertMaggie])
    | (cases url <;> cases tbl <;>
        simp_all [boot, postgresConnect, runCreateUsers, runInsertMaggie])

/-- C4 (witness): the startup-dependency theorem applied to a world with
DATABASE_URL unset. -/
theorem noServeWithoutDatabase_witness :
    (∃ e, (boot ⟨none, true, ⟨none⟩⟩).2.2 = .error e)
    ∧ Ev.listen ∉ (boot ⟨none, true, ⟨none⟩⟩).1 :=
  noServeWithoutDatabase ⟨none, true, ⟨none⟩⟩ (Or.inl rfl)

/-- C5: when the table-creation statement or the seed-insert statement
fails, the process fails to start and never listens; and the creation
statement has no idempotency guard: it fails whenever the users table
already exists. -/
theorem startupStatementFailureFatal :
    (∀ w e, (runCreateUsers w.db = .error e
        ∨ ∃ db1, runCreateUsers w.db = .ok db1 ∧ runInsertMaggie db1 = .error e) →
      (∃ e2, (boot w).2.2 = .error e2) ∧ Ev.listen ∉ (boot w).1)
    ∧ (∀ rows, runCreateUsers ⟨some rows⟩ = .error .statementError) := by
  constructor
  · intro w e h
    obtain ⟨url, reach, ⟨tbl⟩⟩ := w
    cases url <;> cases reach <;> cases tbl <;>
      simp_all [boot, postgresConnect, runCreateUsers, runInsertMaggie]
  · intro rows
    rfl

/-- C5 (witness): the statement-failure theorem applied to a start
against a database whose users table already exists. -/
theorem startupStatementFailureFatal_witness :
    (∃ e2, (boot ⟨some "postgres://db", true, ⟨some ["maggie simpson"]⟩⟩).2.2 = .error e2)
    ∧ Ev.listen ∉ (boot ⟨some "postgres://db", true, ⟨some ["maggie simpson"]⟩⟩).1 :=
  startupStatementFailureFatal.1
    ⟨some "postgres://db", true, ⟨some ["maggie simpson"]⟩⟩
    .statementError (Or.inl rfl)

/-- C6 (counterexample): a second start against the persistent database
left by a successful first start does not append a seed row: the table
creation fails first, the row count is unchanged and the insert step is
never executed, so repeated starts do not add one duplicate per start. -/
theorem restartInsertsNoRow :
    rowCount (boot ⟨some "postgres://db", true, ⟨some ["maggie simpson"]⟩⟩).2.1
      = rowCount (⟨some ["maggie simpson"]⟩ : DB)
    ∧ Ev.execInsert ∉ (boot ⟨some "postgres://db", true, ⟨some ["maggie simpson"]⟩⟩).1
    ∧ (∃ e, (boot ⟨some "postgres://db", true, ⟨some ["maggie simpson"]⟩⟩).2.2 = .error e) :=
  ⟨rfl, by decide, ⟨.statementError, rfl⟩⟩

/-- C6 (amended): with a reachable database and a connection string set,
a start against a database without a users table creates it and appends
exactly the one seed row; a start against a database whose users table
already exists fails at table creation, executes no insert, and leaves
the row count unchanged. -/
theorem seedInsertPerStart (w : World) (u : String)
    (hu : w.databaseUrl = some u) (hr : w.reachable = true) :
    (w.db.usersTable = none →
      rowCount (boot w).2.1 = rowCount w.db + 1
      ∧ (boot w).2.1.usersTable = some ["maggie simpson"])
    ∧ (∀ rows, w.db.usersTable = some rows →
      rowCount (boot w).2.1 = rowCount w.db ∧ Ev.execInsert ∉ (boot w).1) := by
  obtain ⟨url, reach, ⟨tbl⟩⟩ := w
  simp only [] at hu hr
  subst hu hr
  cases tbl <;>
    simp_all [boot, postgresConnect, runCreateUsers, runInsertMaggie, rowCount]

/-- C6 (witness): the amended seeding theorem applied to a first start
against a fresh database. -/
theorem seedInsertPerStart_witness :
    rowCount (boot ⟨some "postgres://db", true, ⟨none⟩⟩).2.1
      = rowCount (⟨none⟩ : DB) + 1
    ∧ (boot ⟨some "postgres://db", true, ⟨none⟩⟩).2.1.usersTable
      = some ["maggie simpson"] :=
  (seedInsertPerStart ⟨some "postgres://db", true, ⟨none⟩⟩ "postgres://db" rfl rfl).1 rfl

/-- C7: two listing responses computed from the same database state with
no intervening write hold the same multiset of records, whatever row
orders the two SELECTs returned. -/
theorem listingReadIdempotentMultiset (db : DB) (b1 b2 : Json)
    (h1 : IndexResult db b1) (h2 : IndexResult db b2) :
    (responseRecords b1 : Multiset Json) = (responseRecords b2 : Multiset Json) := by
  obtain ⟨u1, ⟨r1, hr1, hp1⟩, hb1⟩ := h1
  obtain ⟨u2, ⟨r2, hr2, hp2⟩, hb2⟩ := h2
  rw [hr1] at hr2
  cases hr2
  subst hb1 hb2
  exact Quot.sound ((hp1.trans hp2.symm).map Json.str)

/-- C7 (witness): the idempotent-read theorem applied to a two-row state
whose two responses returned the rows in opposite orders. -/
theorem listingReadIdempotentMultiset_witness :
    (responseRecords (Json.obj [("users", Json.arr [Json.str "a", Json.str "b"])]) : Multiset Json)
      = (responseRecords (Json.obj [("users", Json.arr [Json.str "b", Json.str "a"])]) : Multiset Json) :=
  listingReadIdempotentMultiset ⟨some ["a", "b"]⟩ _ _
    ⟨["a", "b"], ⟨["a", "b"], rfl, List.Perm.refl _⟩, rfl⟩
    ⟨["b", "a"], ⟨["a", "b"], rfl, by decide⟩, rfl⟩

/-- C8: handling GET /users any number of times leaves the database
state, and hence the row count of the users table, unchanged: the
handler only issues a SELECT. -/
theorem listingPreservesRowCount (db : DB) (n : Nat) :
    rowCount ((fun d => (handleGetUsers d).2)^[n] db) = rowCount db := by
  rw [show (fun d => (handleGetUsers d).2) = id from rfl, Function.iterate_id]
  rfl

/-- C9: when the listing query fails, the handler returns the 500 server
error carrying that failure, issues the query exactly once (no retry),
and returns no 200 response (no partial result). -/
theorem queryFailureSurfacesAsServerError (db : DB) (e : DBError)
    (h : allUsers db = .error e) :
    dispatchGetUsers db = .error500 e
    ∧ (index db).1.count Ev.query = 1
    ∧ ∀ j, dispatchGetUsers db ≠ .ok200 j := by
  unfold dispatchGetUsers index
  rw [h]
  exact ⟨rfl, rfl, fun j hj => by cases hj⟩

/-- C9 (witness): the failure-surfacing theorem applied to a state where
the users table is missing, so the SELECT fails. -/
theorem queryFailureSurfacesAsServerError_witness :
    dispatchGetUsers ⟨none⟩ = .error500 .statementError
    ∧ (index (⟨none⟩ : DB)).1.count Ev.query = 1
    ∧ ∀ j, dispatchGetUsers ⟨none⟩ ≠ .ok200 j :=
  queryFailureSurfacesAsServerError ⟨none⟩ .statementError rfl

/-- C10: every process start reads the environment exactly once (line 6,
before any request is served), and the request handler never reads the
environment, so environment changes after startup cannot affect which
connection the handler uses or what it responds. -/
theorem envReadOnceAtStartup :
    (∀ w, (boot w).1.count Ev.readEnv = 1)
    ∧ (∀ db, (index db).1.count Ev.readEnv = 0) := by
  constructor
  · intro w
    obtain ⟨url, reach, ⟨tbl⟩⟩ := w
    cases url <;> cases reach <;> cases tbl <;>
      simp [boot, postgresConnect, runCreateUsers, runInsertMaggie]
  · intro db
    obtain ⟨tbl⟩ := db
    cases tbl <;> simp [index, allUsers]

end MSCompose
